import Mathlib

/-!
Shallow embedding of the PVSRA trading core (pvsra.py, bot.py,
binance_futures_pvsra.py).  Prices, volumes and confidences are modelled
as exact rationals; Python `round` is modelled as round-half-to-even on ℚ;
pandas NaN cells (rolling mean over too few bars) are modelled as `none`,
and every comparison against such a cell is false, matching pandas.
-/

namespace PvsraTrader

/-- One OHLCV bar.  Field names abbreviate open/high/low/close/volume
(`open` is a Lean keyword). -/
structure Bar where
  op : ℚ
  hi : ℚ
  lo : ℚ
  cl : ℚ
  vol : ℚ
deriving DecidableEq, Repr

instance : Inhabited Bar := ⟨⟨0, 0, 0, 0, 0⟩⟩

/-- Python `round` on the exact ratio: round half to even (banker's
rounding), as used by `round(raw_quantity / step_size)` in bot.py. -/
def roundHalfEven (x : ℚ) : ℤ :=
  let f : ℤ := ⌊x⌋
  let r : ℚ := x - f
  if r < 1/2 then f
  else if 1/2 < r then f + 1
  else if f % 2 = 0 then f else f + 1

/-- Substring test on char lists: does the text start with the pattern? -/
def charsStartWith : List Char → List Char → Bool
  | [], _ => true
  | _ :: _, [] => false
  | a :: p, b :: s => a = b && charsStartWith p s

/-- Substring test on char lists: does the pattern occur contiguously in
the text?  Models Python's `pat in text`. -/
def charsContain (p : List Char) : List Char → Bool
  | [] => charsStartWith p []
  | b :: s => charsStartWith p (b :: s) || charsContain p s

/-- Python `pat in s` for strings. -/
def strContains (s pat : String) : Bool :=
  charsContain pat.toList s.toList

/-! ## Volume/Range classifier (pvsra.py, `PVSRA.calculate`) -/

/-- The classifier's configuration (PVSRA.__init__). -/
structure PvsraParams where
  lookback : ℕ
  climaxMultiplier : ℚ
  risingMultiplier : ℚ
deriving DecidableEq, Repr

/-- `result['avg_volume'] = result['volume'].rolling(window=lookback).mean()`
(pvsra.py line 55): the mean of the `lookback` volumes ending at and
including bar `i`; NaN (`none`) when fewer than `lookback` bars are
available up to `i`. -/
def avgVolume (p : PvsraParams) (w : List Bar) (i : ℕ) : Option ℚ :=
  if p.lookback ≤ i + 1 ∧ 0 < p.lookback then
    some ((((List.range p.lookback).map
      (fun j => (w.getD (i + 1 - p.lookback + j) default).vol)).sum) / p.lookback)
  else none

/-- `result['volume_ratio'] = result['volume'] / result['avg_volume']`
(pvsra.py line 58); NaN propagates from a NaN average. -/
def volumeRatio (p : PvsraParams) (w : List Bar) (i : ℕ) : Option ℚ :=
  (avgVolume p w i).map (fun a => (w.getD i default).vol / a)

/-- `result['is_bullish'] = result['close'] > result['open']` (line 61). -/
def isBullish (b : Bar) : Bool := b.op < b.cl

/-- `result['is_bearish'] = result['close'] < result['open']` (line 62). -/
def isBearish (b : Bar) : Bool := b.cl < b.op

/-- `abs(close - open) / high - low < 0.1` (line 63, the source's own
visibly broken doji formula, embedded as written). -/
def isDoji (b : Bar) : Bool := |b.cl - b.op| / b.hi - b.lo < 1/10

/-- `result['body_size'] = abs(result['close'] - result['open'])`. -/
def bodySize (b : Bar) : ℚ := |b.cl - b.op|

/-- `result['upper_wick'] = high - max(open, close)`. -/
def upperWick (b : Bar) : ℚ := b.hi - max b.op b.cl

/-- `result['lower_wick'] = min(open, close) - low`. -/
def lowerWick (b : Bar) : ℚ := min b.op b.cl - b.lo

/-- `result['total_range'] = result['high'] - result['low']`. -/
def totalRange (b : Bar) : ℚ := b.hi - b.lo

/-- Climax test (pvsra.py lines 72-75); false on a NaN volume ratio,
as in pandas. -/
def isClimax (p : PvsraParams) (w : List Bar) (i : ℕ) : Bool :=
  match volumeRatio p w i with
  | some r =>
      decide (p.climaxMultiplier ≤ r) &&
      decide (totalRange (w.getD i default) * (3/10) < bodySize (w.getD i default))
  | none => false

/-- Rising-volume test (pvsra.py lines 78-82); false on a NaN ratio. -/
def isRising (p : PvsraParams) (w : List Bar) (i : ℕ) : Bool :=
  match volumeRatio p w i with
  | some r =>
      decide (p.risingMultiplier ≤ r) &&
      decide (r < p.climaxMultiplier) &&
      decide (totalRange (w.getD i default) * (2/10) < bodySize (w.getD i default))
  | none => false

/-- `condition` column (pvsra.py lines 85-94). -/
def condition (p : PvsraParams) (w : List Bar) (i : ℕ) : String :=
  if isClimax p w i then "climax"
  else if isRising p w i then "rising"
  else "normal"

/-- `candle_color` column (pvsra.py lines 97-106). -/
def candleColor (p : PvsraParams) (w : List Bar) (i : ℕ) : String :=
  if condition p w i = "climax" then
    if isBearish (w.getD i default) then "red" else "cyan"
  else if condition p w i = "rising" then
    if isBullish (w.getD i default) then "blue" else "yellow"
  else
    if isBullish (w.getD i default) then "green" else "red"

/-- `alert` column (pvsra.py lines 109-125). -/
def alertText (p : PvsraParams) (w : List Bar) (i : ℕ) : Option String :=
  if condition p w i = "climax" then
    if isBullish (w.getD i default) then some "Bull Climax - Potential Reversal"
    else some "Bear Climax - Potential Reversal"
  else if condition p w i = "rising" then
    if isBullish (w.getD i default) then some "Rising Volume Bull - Continuation Signal"
    else some "Rising Volume Bear - Continuation Signal"
  else none

/-- One row of the classifier's output: the source bar plus every derived
column added by `PVSRA.calculate`. -/
structure ClassifiedBar where
  bar : Bar
  avgVol : Option ℚ
  volRatio : Option ℚ
  bullish : Bool
  bearish : Bool
  doji : Bool
  body : ℚ
  upWick : ℚ
  loWick : ℚ
  range : ℚ
  climax : Bool
  rising : Bool
  cond : String
  color : String
  alert : Option String
deriving DecidableEq, Repr

/-- The classifier's full output row for bar `i` of window `w`. -/
def classifyAt (p : PvsraParams) (w : List Bar) (i : ℕ) : ClassifiedBar :=
  let b := w.getD i default
  { bar := b
    avgVol := avgVolume p w i
    volRatio := volumeRatio p w i
    bullish := isBullish b
    bearish := isBearish b
    doji := isDoji b
    body := bodySize b
    upWick := upperWick b
    loWick := lowerWick b
    range := totalRange b
    climax := isClimax p w i
    rising := isRising p w i
    cond := condition p w i
    color := candleColor p w i
    alert := alertText p w i }

/-- All classified rows of a window, in order. -/
def classifiedList (p : PvsraParams) (w : List Bar) : List ClassifiedBar :=
  (List.range w.length).map (classifyAt p w)

/-- `PVSRA.calculate` (pvsra.py lines 38-127): on a window shorter than
the lookback period the input is returned unchanged (`Sum.inl`);
otherwise every bar is classified on a fresh copy (`Sum.inr`). -/
def calculate (p : PvsraParams) (w : List Bar) : List Bar ⊕ List ClassifiedBar :=
  if w = [] ∨ w.length < p.lookback then Sum.inl w
  else Sum.inr (classifiedList p w)

/-- A DataFrame object as the caller sees it: its OHLCV columns plus the
derived PVSRA columns, when those have been added to this object. -/
structure DataFrameObj where
  bars : List Bar
  derived : Option (List ClassifiedBar)
deriving DecidableEq, Repr

/-- `PVSRA.calculate` with the mutation made explicit: the returned pair is
(the caller's DataFrame object after the call, the returned object).
On the short-window path (line 48-49) the input object itself is returned
with nothing written to it; otherwise `result = df.copy()` (line 52)
allocates a fresh object and every column assignment (lines 55-125)
targets that copy only. -/
def calculateEffect (p : PvsraParams) (df : DataFrameObj) :
    DataFrameObj × DataFrameObj :=
  if df.bars = [] ∨ df.bars.length < p.lookback then
    (df, df)
  else
    let result : DataFrameObj := { df with derived := some (classifiedList p df.bars) }
    (df, result)

/-! ## Signal fusion engine (bot.py, `evaluate_pvsra_signal`) -/

/-- PVSRA-related configuration of the bot (bot.py lines 98-100). -/
structure FusionConfig where
  usePvsra : Bool
  pvsraWeight : ℚ
  requireConfirmation : Bool
deriving DecidableEq, Repr

/-- The fields of a PVSRA alert dict that `evaluate_pvsra_signal` reads:
`alert.get('alert', '')` and `alert.get('condition')`. -/
structure PvsraAlert where
  alert : String
  cond : String
deriving DecidableEq, Repr

instance : Inhabited PvsraAlert := ⟨⟨"", ""⟩⟩

/-- The dict returned by `evaluate_pvsra_signal` / `should_enter_trade`
(fields present in every branch; branch-specific extras such as
`price_change` are elided). -/
structure EvalResult where
  shouldTrade : Bool
  confidence : ℚ
  reason : String
  finalAction : Option String
  pvsraSignal : Option String
deriving DecidableEq, Repr

/-- The `# Interpret PVSRA signal` chain (bot.py lines 399-411): the
implied action and its confidence; `(none, 0.5)` when no branch matches
(`pvsra_action`/`confidence` keep their initial values). -/
def interpretAlert (a : PvsraAlert) : Option String × ℚ :=
  if strContains a.alert "Bull" && decide (a.cond = "climax") then (some "BUY", 8/10)
  else if strContains a.alert "Bear" && decide (a.cond = "climax") then (some "SELL", 8/10)
  else if strContains a.alert "Rising" then (some "BUY", 6/10)
  else if strContains a.alert "Falling" then (some "SELL", 6/10)
  else (none, 5/10)

/-- `evaluate_pvsra_signal` (bot.py lines 367-451).  `signalAge` is
`time.time() - self.pvsra_signal_time`. -/
def evaluatePvsraSignal (cfg : FusionConfig) (lastSignal : Option PvsraAlert)
    (signalAge : ℚ) (intendedAction : String) : EvalResult :=
  if cfg.usePvsra = false ∨ lastSignal = none then
    ⟨true, 5/10, "No PVSRA signal available", some intendedAction, none⟩
  else
    let alert := lastSignal.getD default
    if 300 < signalAge then
      ⟨!cfg.requireConfirmation, 3/10, "PVSRA signal too old", some intendedAction, none⟩
    else
      let pvsraAction := (interpretAlert alert).1
      let conf := (interpretAlert alert).2
      if pvsraAction = some intendedAction then
        ⟨true, conf * cfg.pvsraWeight + 3/10 * (1 - cfg.pvsraWeight),
          "PVSRA confirms " ++ intendedAction ++ " signal",
          some intendedAction, some alert.alert⟩
      else if pvsraAction.isSome then
        if cfg.requireConfirmation then
          ⟨false, conf,
            "PVSRA contradicts " ++ intendedAction ++
              " (suggests " ++ pvsraAction.getD "" ++ ")",
            none, some alert.alert⟩
        else
          ⟨true, 3/10 * cfg.pvsraWeight + 5/10 * (1 - cfg.pvsraWeight),
            "Traditional signal wins over PVSRA (weighted)",
            some intendedAction, some alert.alert⟩
      else
        ⟨!cfg.requireConfirmation, 4/10, "No clear PVSRA signal", some intendedAction, none⟩

/-! ## Decision guard (bot.py, `should_enter_trade` and the main loop) -/

/-- The bot configuration fields the decision guard reads. -/
structure BotConfig where
  allowMultiplePositions : Bool
  tradeCooldown : ℚ
  minPriceChange : ℚ
  fusion : FusionConfig
deriving DecidableEq, Repr

/-- The mutable bot state the decision guard reads (and the trading loop
writes). -/
structure BotState where
  positionSize : ℚ
  lastTradeTime : ℚ
  priceHistory : List ℚ
  lastPvsraSignal : Option PvsraAlert
  pvsraSignalTime : ℚ
deriving DecidableEq, Repr

/-- `should_enter_trade` (bot.py lines 453-530).  `existingPosition`
models the external `check_existing_position` REST result; the source
formats position details and the contributing confidences into the
"Position exists" and "Combined signal" reason strings, a float
formatting detail elided here. -/
def shouldEnterTrade (cfg : BotConfig) (st : BotState) (existingPosition : Bool)
    (now : ℚ) (action : String) : EvalResult :=
  if cfg.allowMultiplePositions = false ∧ existingPosition = true then
    ⟨false, 0, "Position exists", none, none⟩
  else if st.positionSize ≠ 0 then
    ⟨false, 0, "Already in position", none, none⟩
  else if now - st.lastTradeTime < cfg.tradeCooldown then
    ⟨false, 0, "Trade cooldown active", none, none⟩
  else if st.priceHistory.length < 5 then
    ⟨false, 0, "Insufficient price history", none, none⟩
  else
    let recentPrices := st.priceHistory.drop (st.priceHistory.length - 5)
    let priceChange := (recentPrices.getLastD 0 - recentPrices.headD 0) / recentPrices.headD 0
    let traditional : Option ℚ :=
      if action = "BUY" ∧ cfg.minPriceChange < priceChange then some (7/10)
      else if action = "SELL" ∧ priceChange < -cfg.minPriceChange then some (7/10)
      else if |priceChange| < cfg.minPriceChange then none
      else some (5/10)
    match traditional with
    | none => ⟨false, 0, "Price change too small", none, none⟩
    | some traditionalConfidence =>
      let pvsraEval :=
        evaluatePvsraSignal cfg.fusion st.lastPvsraSignal (now - st.pvsraSignalTime) action
      if pvsraEval.shouldTrade = false then pvsraEval
      else
        ⟨true,
          pvsraEval.confidence * cfg.fusion.pvsraWeight +
            traditionalConfidence * (1 - cfg.fusion.pvsraWeight),
          "Combined signal", pvsraEval.finalAction, pvsraEval.pvsraSignal⟩

/-- One decision-loop pass for a candidate action (bot.py lines 793-855):
evaluate `should_enter_trade`; on an accepted decision with a positive
computed position size, record `bot.last_trade_time = time.time()`
(line 851); every rejection leaves the state untouched.  `positionSize`
is the balance-dependent result of `calculate_position_size`, an
external input here. -/
def loopStep (cfg : BotConfig) (st : BotState) (existingPosition : Bool)
    (now : ℚ) (action : String) (positionSize : ℚ) : EvalResult × BotState :=
  let d := shouldEnterTrade cfg st existingPosition now action
  if d.shouldTrade = true ∧ 0 < positionSize then
    (d, { st with lastTradeTime := now })
  else (d, st)

/-! ## Quantity quantizer (bot.py, `calculate_position_size`) -/

/-- The quantization core of `calculate_position_size` (bot.py lines
550-581): `positionValue` is `base_trade_amount * leverage`; the
SUIUSDT filters `step_size = 0.1`, `min_qty = 0.1`, `min_notional = 5.0`
are hardcoded in the source.  The returned value is a bare quantity —
the source reports no min-notional flag. -/
def calculatePositionSize (positionValue price : ℚ) : ℚ :=
  let stepSize : ℚ := 1/10
  let minQty : ℚ := 1/10
  let minNotional : ℚ := 5
  let rawQuantity := positionValue / price
  let quantity := (roundHalfEven (rawQuantity / stepSize) : ℚ) * stepSize
  let quantity := if quantity < minQty then minQty else quantity
  let notionalValue := quantity * price
  if notionalValue < minNotional then
    (roundHalfEven ((minNotional / price) / stepSize) : ℚ) * stepSize
  else quantity

/-! ## Bar store (binance_futures_pvsra.py, `_process_kline_message`) -/

/-- One stored kline row: the DataFrame index label (period-start
timestamp in ms) plus the OHLCV column values. -/
structure KBar where
  ts : ℤ
  op : ℚ
  hi : ℚ
  lo : ℚ
  cl : ℚ
  vol : ℚ
deriving DecidableEq, Repr

/-- One incoming kline stream message (`data['k']`): period start `t`,
OHLCV, and the `x` closed flag. -/
structure Kline where
  t : ℤ
  o : ℚ
  h : ℚ
  l : ℚ
  c : ℚ
  v : ℚ
  x : Bool
deriving DecidableEq, Repr

/-- `_process_kline_message` (binance_futures_pvsra.py lines 189-235),
restricted to its effect on `self.klines_data[symbol]`.  Closed kline
(`x` true): `concat(store[:-1], new_row)` then `tail(200)`.  Provisional
kline: `store.iloc[-1] = new_row.iloc[0]` overwrites the last row's
column values in place, keeping that row's index label; on an empty
store the `iloc[-1]` assignment raises and the handler leaves the store
unchanged. -/
def processKlineMessage (store : List KBar) (k : Kline) : List KBar :=
  let newRow : KBar := ⟨k.t, k.o, k.h, k.l, k.c, k.v⟩
  if k.x then
    let updated := store.dropLast ++ [newRow]
    if 200 < updated.length then updated.drop (updated.length - 200) else updated
  else
    match store.getLast? with
    | none => store
    | some lastRow => store.dropLast ++ [{ newRow with ts := lastRow.ts }]

/-! ## Spec-side definition used to compare against the source (C4) -/

/-- The average-volume rule as the spec words it ("mean of the volumes of
the lookback bars strictly before i, bars [i-lookback, i-1], excluding
bar i itself"), for comparison with `avgVolume`. -/
def avgVolumeSpec (p : PvsraParams) (w : List Bar) (i : ℕ) : Option ℚ :=
  if p.lookback ≤ i ∧ 0 < p.lookback then
    some ((((List.range p.lookback).map
      (fun j => (w.getD (i - p.lookback + j) default).vol)).sum) / p.lookback)
  else none

/-! ## Theorems -/

/-- Helper: `roundHalfEven` at a point whose fractional part is below one
half rounds down to the floor. -/
theorem roundHalfEven_of_lt (x : ℚ) (n : ℤ) (hn : ⌊x⌋ = n) (h : x - n < 1/2) :
    roundHalfEven x = n := by
  simp only [roundHalfEven, hn]
  rw [if_pos h]

/-- Helper: `roundHalfEven` at a point whose fractional part is above one
half rounds up to the floor plus one. -/
theorem roundHalfEven_of_gt (x : ℚ) (n : ℤ) (hn : ⌊x⌋ = n) (h : 1/2 < x - n) :
    roundHalfEven x = n + 1 := by
  have h1 : ¬(x - (n : ℚ) < 1/2) := by linarith
  simp only [roundHalfEven, hn]
  rw [if_neg h1, if_pos h]

/-- C5: evaluating the bar store at the claim's own scenario: a store
holding one closed bar at t0 = 0, then two provisional kline messages
(x = false) stamped in t0's successor minute period.  The source
overwrites the last row in place both times: the length stays 1 (the
claim requires it to grow by exactly 1) and the closed t0 bar's OHLCV
values are replaced (only its stale index label survives). -/
theorem c5_provisional_update_overwrites_closed_bar :
    processKlineMessage [⟨0, 1, 2, 1, 2, 5⟩] ⟨60000, 2, 3, 2, 3, 7, false⟩ =
      [⟨0, 2, 3, 2, 3, 7⟩] ∧
    processKlineMessage
        (processKlineMessage [⟨0, 1, 2, 1, 2, 5⟩] ⟨60000, 2, 3, 2, 3, 7, false⟩)
        ⟨60000, 2, 4, 2, 4, 9, false⟩ =
      [⟨0, 2, 4, 2, 4, 9⟩] := by
  decide

/-- C6: evaluating the quantizer where the min-notional recompute cannot
reach `minNotional`: positionValue = 1, price = 250/7 ≈ 35.71.  The
source returns the bare quantity 0.1 whose notional 25/7 ≈ 3.57 is below
the hardcoded minNotional 5, with no `satisfiesMinNotional` flag and no
error; since the caller's only guard is `quantity > 0`, the undersized
order is placed silently rather than reported (and no minQty re-clamp
follows the recompute). -/
theorem c6_undersized_quantity_returned_silently :
    calculatePositionSize 1 (250/7) = 1/10 ∧
    (1/10 : ℚ) * (250/7) < 5 ∧
    0 < calculatePositionSize 1 (250/7) := by
  have e1 : (1 : ℚ) / (250/7) / (1/10) = 7/25 := by norm_num
  have f1 : roundHalfEven (7/25) = 0 := by
    apply roundHalfEven_of_lt _ 0
    · rw [Int.floor_eq_iff]; norm_num
    · norm_num
  have e2 : (5 : ℚ) / (250/7) / (1/10) = 7/5 := by norm_num
  have f2 : roundHalfEven (7/5) = 1 := by
    apply roundHalfEven_of_lt _ 1
    · rw [Int.floor_eq_iff]; norm_num
    · norm_num
  have hq : calculatePositionSize 1 (250/7) = 1/10 := by
    simp only [calculatePositionSize]
    rw [e1, f1, e2, f2]
    norm_num
  refine ⟨hq, by norm_num, by rw [hq]; norm_num⟩

/-- C8: the quantizer round-trip of the spec's example: target notional
52 at price 4.58 = 229/50 (with the hardcoded stepSize 0.1, minQty 0.1,
minNotional 5).  The resulting quantity 57/5 = 11.4 is an integer
multiple of 0.1 (k = 114), is at least minQty, and its notional 52.212
meets minNotional; the rounding of the quantity/stepSize ratio is
`roundHalfEven` (banker's rounding) and the whole computation is a
deterministic function of its inputs. -/
theorem c8_quantizer_round_trip :
    calculatePositionSize 52 (229/50) = 57/5 ∧
    (∃ k : ℤ, calculatePositionSize 52 (229/50) = k * (1/10)) ∧
    (1/10 : ℚ) ≤ calculatePositionSize 52 (229/50) ∧
    (5 : ℚ) ≤ calculatePositionSize 52 (229/50) * (229/50) := by
  have e1 : (52 : ℚ) / (229/50) / (1/10) = 26000/229 := by norm_num
  have f1 : roundHalfEven (26000/229) = 114 := by
    have : roundHalfEven (26000/229) = 113 + 1 := by
      apply roundHalfEven_of_gt _ 113
      · rw [Int.floor_eq_iff]; norm_num
      · norm_num
    omega
  have hq : calculatePositionSize 52 (229/50) = 57/5 := by
    simp only [calculatePositionSize]
    rw [e1, f1]
    norm_num
  refine ⟨hq, ⟨114, by rw [hq]; norm_num⟩, by rw [hq]; norm_num, by rw [hq]; norm_num⟩

/-- C1: evaluating the fusion engine at the claim's "in particular" case:
a fresh alert with text "Rising Volume Bear - Continuation Signal"
(condition "rising").  The source's interpretation chain matches the
"Rising" substring first and yields implied action BUY with confidence
0.6 — not SELL as the claim states — so an intended SELL is treated as
contradicted (down-weighted to 0.3*w + 0.5*(1-w) = 9/25), not confirmed.
(The SELL/0.6 branch tests for "Falling", a string pvsra.py never
emits.) -/
theorem c1_bearish_rising_alert_implies_buy :
    interpretAlert ⟨"Rising Volume Bear - Continuation Signal", "rising"⟩ =
      (some "BUY", 6/10) ∧
    evaluatePvsraSignal ⟨true, 7/10, false⟩
        (some ⟨"Rising Volume Bear - Continuation Signal", "rising"⟩) 0 "SELL" =
      ⟨true, 9/25, "Traditional signal wins over PVSRA (weighted)",
        some "SELL", some "Rising Volume Bear - Continuation Signal"⟩ := by
  refine ⟨rfl, ?_⟩
  have h : evaluatePvsraSignal ⟨true, 7/10, false⟩
      (some ⟨"Rising Volume Bear - Continuation Signal", "rising"⟩) 0 "SELL" =
      ⟨true, 3/10 * (7/10) + 5/10 * (1 - 7/10),
        "Traditional signal wins over PVSRA (weighted)",
        some "SELL", some "Rising Volume Bear - Continuation Signal"⟩ := rfl
  rw [h]
  norm_num [EvalResult.mk.injEq]

/-- C2 counterexample: with the require-confirmation policy active and no
alert present, the source still returns should_trade = true (baseline
confidence 0.5) — the claim's "absence of an alert alone blocks trading"
is false: only the stale-alert branch consults the policy. -/
theorem c2_absent_alert_ignores_confirmation :
    evaluatePvsraSignal ⟨true, 7/10, true⟩ none 0 "BUY" =
      ⟨true, 1/2, "No PVSRA signal available", some "BUY", none⟩ := by
  have h : evaluatePvsraSignal ⟨true, 7/10, true⟩ none 0 "BUY" =
      ⟨true, 5/10, "No PVSRA signal available", some "BUY", none⟩ := rfl
  rw [h]
  norm_num [EvalResult.mk.injEq]

/-- C2 as amended: with no alert the fusion evaluation returns baseline
confidence 0.5 and should_trade = true unconditionally — even when the
require-confirmation policy is active — while a stale alert (older than
the 300 s freshness window) yields confidence 0.3 and should_trade =
true exactly when confirmation is not required. -/
theorem c2_absent_and_stale_alert_defaults (cfg : FusionConfig) (age : ℚ)
    (intended : String) (a : PvsraAlert)
    (hUse : cfg.usePvsra = true) (hStale : 300 < age) :
    evaluatePvsraSignal cfg none age intended =
      ⟨true, 1/2, "No PVSRA signal available", some intended, none⟩ ∧
    evaluatePvsraSignal cfg (some a) age intended =
      ⟨!cfg.requireConfirmation, 3/10, "PVSRA signal too old",
        some intended, none⟩ := by
  constructor
  · norm_num [evaluatePvsraSignal, EvalResult.mk.injEq]
  · norm_num [evaluatePvsraSignal, hUse, hStale, EvalResult.mk.injEq]
    exact Option.some_ne_none a

/-- C2 witness: the amended statement evaluated at a concrete
configuration (confirmation required) with a stale Bull-climax alert. -/
theorem c2_absent_and_stale_alert_defaults_witness :
    evaluatePvsraSignal ⟨true, 7/10, true⟩ none 400 "BUY" =
      ⟨true, 1/2, "No PVSRA signal available", some "BUY", none⟩ ∧
    evaluatePvsraSignal ⟨true, 7/10, true⟩
        (some ⟨"Bull Climax - Potential Reversal", "climax"⟩) 400 "BUY" =
      ⟨!true, 3/10, "PVSRA signal too old", some "BUY", none⟩ :=
  c2_absent_and_stale_alert_defaults ⟨true, 7/10, true⟩ 400 "BUY"
    ⟨"Bull Climax - Potential Reversal", "climax"⟩ rfl (by norm_num)

/-- C3: for every fresh alert whose implied action conflicts with the
intended action, the fusion evaluation rejects the trade with the
alert's own confidence and a contradiction rationale under the
require-confirmation policy, and otherwise allows it with final
confidence exactly weight*0.3 + (1-weight)*0.5; the confirmation check
sits strictly before the weighting in the source's branch order. -/
theorem c3_fresh_conflicting_alert (cfg : FusionConfig) (a : PvsraAlert)
    (age : ℚ) (intended act : String) (c : ℚ)
    (hUse : cfg.usePvsra = true) (hFresh : age ≤ 300)
    (hInterp : interpretAlert a = (some act, c)) (hConflict : act ≠ intended) :
    evaluatePvsraSignal cfg (some a) age intended =
      if cfg.requireConfirmation then
        ⟨false, c, "PVSRA contradicts " ++ intended ++
          " (suggests " ++ act ++ ")", none, some a.alert⟩
      else
        ⟨true, 3/10 * cfg.pvsraWeight + 5/10 * (1 - cfg.pvsraWeight),
          "Traditional signal wins over PVSRA (weighted)",
          some intended, some a.alert⟩ := by
  have hNotStale : ¬(300 < age) := not_lt.mpr hFresh
  cases hrc : cfg.requireConfirmation <;>
    simp [evaluatePvsraSignal, hUse, hNotStale, hInterp, hrc, hConflict]

/-- C3 witness: a fresh Bear-climax alert (implied SELL, confidence 0.8)
against an intended BUY under require-confirmation: the trade is
rejected with the alert's confidence and the contradiction rationale. -/
theorem c3_fresh_conflicting_alert_witness :
    evaluatePvsraSignal ⟨true, 7/10, true⟩
        (some ⟨"Bear Climax - Potential Reversal", "climax"⟩) 0 "BUY" =
      ⟨false, 8/10, "PVSRA contradicts BUY (suggests SELL)",
        none, some "Bear Climax - Potential Reversal"⟩ := by
  rw [c3_fresh_conflicting_alert ⟨true, 7/10, true⟩
    ⟨"Bear Climax - Potential Reversal", "climax"⟩ 0 "BUY" "SELL" (8/10)
    rfl (by norm_num) rfl (by decide)]
  rfl

/-- C4 counterexample: with lookback = 2 and volumes 1, 3, 5, the
source's rolling mean at bar 2 is (3+5)/2 = 4 — the window ends at and
includes bar 2 — whereas the claim's "lookback bars strictly before i"
gives (1+3)/2 = 2; the two disagree. -/
theorem c4_rolling_mean_includes_current_bar :
    avgVolume ⟨2, 2, 3/2⟩
      [⟨1, 1, 1, 1, 1⟩, ⟨1, 1, 1, 1, 3⟩, ⟨1, 1, 1, 1, 5⟩] 2 = some 4 ∧
    avgVolumeSpec ⟨2, 2, 3/2⟩
      [⟨1, 1, 1, 1, 1⟩, ⟨1, 1, 1, 1, 3⟩, ⟨1, 1, 1, 1, 5⟩] 2 = some 2 ∧
    avgVolume ⟨2, 2, 3/2⟩
      [⟨1, 1, 1, 1, 1⟩, ⟨1, 1, 1, 1, 3⟩, ⟨1, 1, 1, 1, 5⟩] 2 ≠
    avgVolumeSpec ⟨2, 2, 3/2⟩
      [⟨1, 1, 1, 1, 1⟩, ⟨1, 1, 1, 1, 3⟩, ⟨1, 1, 1, 1, 5⟩] 2 := by
  have h1 : avgVolume ⟨2, 2, 3/2⟩
      [⟨1, 1, 1, 1, 1⟩, ⟨1, 1, 1, 1, 3⟩, ⟨1, 1, 1, 1, 5⟩] 2 = some 4 := by
    norm_num [avgVolume, List.range_succ]
  have h2 : avgVolumeSpec ⟨2, 2, 3/2⟩
      [⟨1, 1, 1, 1, 1⟩, ⟨1, 1, 1, 1, 3⟩, ⟨1, 1, 1, 1, 5⟩] 2 = some 2 := by
    norm_num [avgVolumeSpec, List.range_succ]
  refine ⟨h1, h2, ?_⟩
  rw [h1, h2]
  norm_num

/-- Helper for C4: the rolling index window written as `List.range` over
`getD` equals the contiguous slice of the volume column ending at and
including index `i`. -/
theorem rolling_window_eq_slice (w : List Bar) (k i : ℕ)
    (hk : 0 < k) (hle : k ≤ i + 1) (hi : i < w.length) :
    ((w.map Bar.vol).take (i + 1)).drop (i + 1 - k) =
      (List.range k).map (fun j => (w.getD (i + 1 - k + j) default).vol) := by
  apply List.ext_getElem
  · simp only [List.length_drop, List.length_take, List.length_map, List.length_range]
    omega
  · intro n h1 h2
    have hlen : n < k := by
      simp only [List.length_drop, List.length_take, List.length_map] at h1
      omega
    have hidx : i + 1 - k + n < w.length := by omega
    rw [List.getElem_drop, List.getElem_take, List.getElem_map, List.getElem_map,
      List.getElem_range, List.getD_eq_getElem _ _ hidx]

/-- C4 as amended: for every bar `i` with at least `lookback` bars up to
and including it, the source's avgVolume is the mean of the volumes of
the `lookback`-bar slice ending at and including bar `i` (pandas rolling
mean, bars [i-lookback+1, i]) — not the bars strictly before `i` — and
volumeRatio is volume[i] divided by that mean. -/
theorem c4_avg_volume_is_inclusive_rolling_mean (p : PvsraParams)
    (w : List Bar) (i : ℕ)
    (hlb : 0 < p.lookback) (hle : p.lookback ≤ i + 1) (hi : i < w.length) :
    avgVolume p w i =
      some ((((w.map Bar.vol).take (i + 1)).drop (i + 1 - p.lookback)).sum
        / p.lookback) ∧
    volumeRatio p w i =
      some ((w.getD i default).vol /
        ((((w.map Bar.vol).take (i + 1)).drop (i + 1 - p.lookback)).sum
          / p.lookback)) := by
  have havg : avgVolume p w i =
      some ((((w.map Bar.vol).take (i + 1)).drop (i + 1 - p.lookback)).sum
        / p.lookback) := by
    unfold avgVolume
    rw [if_pos ⟨hle, hlb⟩, rolling_window_eq_slice w p.lookback i hlb hle hi]
  refine ⟨havg, ?_⟩
  unfold volumeRatio
  rw [havg]
  rfl

/-- C4 witness: the amended statement at lookback 2, volumes 1, 3, 5,
bar index 2: the rolling slice is the volumes of bars 1 and 2. -/
theorem c4_avg_volume_is_inclusive_rolling_mean_witness :
    avgVolume ⟨2, 2, 3/2⟩
      [⟨1, 1, 1, 1, 1⟩, ⟨1, 1, 1, 1, 3⟩, ⟨1, 1, 1, 1, 5⟩] 2 =
      some (((([⟨1, 1, 1, 1, 1⟩, ⟨1, 1, 1, 1, 3⟩, ⟨1, 1, 1, 1, 5⟩].map
        (Bar.vol)).take 3).drop 1).sum / (2 : ℕ)) ∧
    volumeRatio ⟨2, 2, 3/2⟩
      [⟨1, 1, 1, 1, 1⟩, ⟨1, 1, 1, 1, 3⟩, ⟨1, 1, 1, 1, 5⟩] 2 =
      some (([⟨1, 1, 1, 1, 1⟩, ⟨1, 1, 1, 1, 3⟩,
          (⟨1, 1, 1, 1, 5⟩ : Bar)].getD 2 default).vol /
        (((([⟨1, 1, 1, 1, 1⟩, ⟨1, 1, 1, 1, 3⟩, ⟨1, 1, 1, 1, 5⟩].map
          (Bar.vol)).take 3).drop 1).sum / (2 : ℕ))) :=
  c4_avg_volume_is_inclusive_rolling_mean ⟨2, 2, 3/2⟩
    [⟨1, 1, 1, 1, 1⟩, ⟨1, 1, 1, 1, 3⟩, ⟨1, 1, 1, 1, 5⟩] 2
    (by decide) (by decide) (by decide)

/-- C9: the classifier is deterministic and local: the classified row of
bar `i` is a pure function of the bars at indices [i-lookback, i] and of
the configured parameters — two windows agreeing on that slice classify
bar `i` identically, so replaying the same window always reproduces the
same ClassifiedBar sequence (there is no hidden time-dependent state:
`classifyAt` takes nothing but the window, the parameters and the
index). -/
theorem c9_classifier_is_deterministic_and_local (p : PvsraParams)
    (w₁ w₂ : List Bar) (i : ℕ)
    (hlen₁ : i < w₁.length) (hlen₂ : i < w₂.length)
    (hagree : ∀ j, i - p.lookback ≤ j → j ≤ i →
      w₁.getD j default = w₂.getD j default) :
    classifyAt p w₁ i = classifyAt p w₂ i := by
  have hb : w₁.getD i default = w₂.getD i default :=
    hagree i (Nat.sub_le i p.lookback) le_rfl
  have hav : avgVolume p w₁ i = avgVolume p w₂ i := by
    unfold avgVolume
    split
    case isTrue h =>
      have hmap : ∀ j ∈ List.range p.lookback,
          (w₁.getD (i + 1 - p.lookback + j) default).vol =
          (w₂.getD (i + 1 - p.lookback + j) default).vol := by
        intro j hj
        have hj' := List.mem_range.mp hj
        rw [hagree (i + 1 - p.lookback + j) (by omega) (by omega)]
      rw [List.map_congr_left hmap]
    case isFalse h => rfl
  have hr : volumeRatio p w₁ i = volumeRatio p w₂ i := by
    unfold volumeRatio
    rw [hav, hb]
  have hc : isClimax p w₁ i = isClimax p w₂ i := by
    unfold isClimax
    rw [hr, hb]
  have hri : isRising p w₁ i = isRising p w₂ i := by
    unfold isRising
    rw [hr, hb]
  have hcond : condition p w₁ i = condition p w₂ i := by
    unfold condition
    rw [hc, hri]
  have hcol : candleColor p w₁ i = candleColor p w₂ i := by
    unfold candleColor
    rw [hcond, hb]
  have halert : alertText p w₁ i = alertText p w₂ i := by
    unfold alertText
    rw [hcond, hb]
  unfold classifyAt
  rw [hb, hav, hr, hc, hri, hcond, hcol, halert]

/-- C9 witness: lookback 1, two windows differing only in bar 0 (outside
the [i-lookback, i] slice for i = 2) classify bar 2 identically. -/
theorem c9_classifier_is_deterministic_and_local_witness :
    classifyAt ⟨1, 2, 3/2⟩
      [⟨9, 9, 9, 9, 9⟩, ⟨1, 3, 1, 3, 4⟩, ⟨1, 5, 1, 5, 8⟩] 2 =
    classifyAt ⟨1, 2, 3/2⟩
      [⟨7, 7, 7, 7, 7⟩, ⟨1, 3, 1, 3, 4⟩, ⟨1, 5, 1, 5, 8⟩] 2 :=
  c9_classifier_is_deterministic_and_local ⟨1, 2, 3/2⟩
    [⟨9, 9, 9, 9, 9⟩, ⟨1, 3, 1, 3, 4⟩, ⟨1, 5, 1, 5, 8⟩]
    [⟨7, 7, 7, 7, 7⟩, ⟨1, 3, 1, 3, 4⟩, ⟨1, 5, 1, 5, 8⟩] 2
    (by decide) (by decide)
    (by
      intro j hj1 hj2
      interval_cases j <;> rfl)

/-- C10: `PVSRA.calculate` leaves the caller's DataFrame unmodified on
every path: after the call the caller's object — including all of its
OHLCV values — is exactly what was passed in (the derived columns are
written only to the `df.copy()` result, and the short-window early
return writes nothing at all); moreover even the returned object carries
the unchanged OHLCV columns. -/
theorem c10_calculate_leaves_input_unmodified (p : PvsraParams)
    (df : DataFrameObj) :
    (calculateEffect p df).1 = df ∧
    ((calculateEffect p df).1).bars = df.bars ∧
    ((calculateEffect p df).2).bars = df.bars := by
  unfold calculateEffect
  split <;> simp

/-- C7: cooldown idempotence of the decision guard plus trading loop.
After an accepted evaluation at `now₁` (with a positive computed
position size) the loop records lastTradeTime = now₁ — exactly once, at
acceptance; a second evaluation at `now₂` within the cooldown window is
rejected with the "Trade cooldown active" reason, and that rejection
leaves the state (lastTradeTime included) unchanged. -/
theorem c7_cooldown_idempotence (cfg : BotConfig) (st : BotState)
    (now₁ now₂ : ℚ) (a₁ a₂ : String) (qty₁ qty₂ : ℚ)
    (hacc : (shouldEnterTrade cfg st false now₁ a₁).shouldTrade = true)
    (hqty : 0 < qty₁)
    (hpos : st.positionSize = 0)
    (hcool : now₂ - now₁ < cfg.tradeCooldown) :
    (loopStep cfg st false now₁ a₁ qty₁).2 =
      { st with lastTradeTime := now₁ } ∧
    shouldEnterTrade cfg (loopStep cfg st false now₁ a₁ qty₁).2 false now₂ a₂ =
      ⟨false, 0, "Trade cooldown active", none, none⟩ ∧
    (loopStep cfg (loopStep cfg st false now₁ a₁ qty₁).2 false now₂ a₂ qty₂).2 =
      (loopStep cfg st false now₁ a₁ qty₁).2 := by
  have h1 : (loopStep cfg st false now₁ a₁ qty₁).2 =
      { st with lastTradeTime := now₁ } := by
    simp [loopStep, hacc, hqty]
  have h2 : shouldEnterTrade cfg { st with lastTradeTime := now₁ } false now₂ a₂ =
      ⟨false, 0, "Trade cooldown active", none, none⟩ := by
    simp [shouldEnterTrade, hpos, hcool]
  refine ⟨h1, by rw [h1]; exact h2, ?_⟩
  rw [h1]
  simp [loopStep, h2]

/-- C7 witness: a concrete run (cooldown 30 s): the first evaluation at
t = 1000 is accepted and records lastTradeTime = 1000; the second at
t = 1010 is rejected with the cooldown reason and changes nothing. -/
theorem c7_cooldown_idempotence_witness :
    (loopStep ⟨false, 30, 0, ⟨false, 7/10, false⟩⟩
        ⟨0, 0, [100, 100, 100, 100, 101], none, 0⟩ false 1000 "BUY" 1).2 =
      { positionSize := 0, lastTradeTime := 1000,
        priceHistory := [100, 100, 100, 100, 101],
        lastPvsraSignal := none, pvsraSignalTime := 0 } ∧
    shouldEnterTrade ⟨false, 30, 0, ⟨false, 7/10, false⟩⟩
        (loopStep ⟨false, 30, 0, ⟨false, 7/10, false⟩⟩
          ⟨0, 0, [100, 100, 100, 100, 101], none, 0⟩ false 1000 "BUY" 1).2
        false 1010 "BUY" =
      ⟨false, 0, "Trade cooldown active", none, none⟩ ∧
    (loopStep ⟨false, 30, 0, ⟨false, 7/10, false⟩⟩
        (loopStep ⟨false, 30, 0, ⟨false, 7/10, false⟩⟩
          ⟨0, 0, [100, 100, 100, 100, 101], none, 0⟩ false 1000 "BUY" 1).2
        false 1010 "BUY" 1).2 =
      (loopStep ⟨false, 30, 0, ⟨false, 7/10, false⟩⟩
        ⟨0, 0, [100, 100, 100, 100, 101], none, 0⟩ false 1000 "BUY" 1).2 :=
  c7_cooldown_idempotence ⟨false, 30, 0, ⟨false, 7/10, false⟩⟩
    ⟨0, 0, [100, 100, 100, 100, 101], none, 0⟩ 1000 1010 "BUY" "BUY" 1 1
    (by norm_num [shouldEnterTrade, evaluatePvsraSignal])
    (by norm_num) rfl (by norm_num)

end PvsraTrader
